import Mathlib

/-!
Verification development for the Vulkan pre-rotation demo renderer
(`app/src/main/cpp/Renderer.cpp`, `VkHelper.h`, `Engine.cpp`).

The renderer's presentation loop (`Renderer::drawFrame`), the resize entry
point (`Renderer::updateSurface`), the swapchain (re)creation logic
(`Renderer::createSwapchain`), the 180-degree-delta detection
(`Renderer::is180Rotation`) and the per-frame push-constant math
(`Renderer::recordCommandBuffer`) are shallowly embedded below.  Vulkan
handles are modelled as abstract generation identifiers (`Nat`): one
generation stands for a swapchain handle together with its images, image
views and framebuffers, which the source code creates and destroys as a
unit.  Device calls are modelled by their observable results, supplied as
per-frame inputs; the `ASSERT` macro (which aborts the process via
`__android_log_assert`) is modelled by an `aborted` flag in the frame
outcome.  Floating point trigonometry in `recordCommandBuffer` is modelled
exactly (the angles are multiples of 90 degrees), and the scale arithmetic
is modelled over `ℚ`.
-/

namespace VkDemo

/-- The surface transform values of `VkSurfaceTransformFlagBitsKHR` that the
code can observe (`Renderer.cpp` switches over the four pure rotations; the
mirrored variants and `INHERIT` fall into `default` branches). -/
inductive SurfaceTransform where
  | identity
  | rotate90
  | rotate180
  | rotate270
  | horizontalMirror
  | horizontalMirrorRotate90
  | horizontalMirrorRotate180
  | horizontalMirrorRotate270
  | inheritTransform
deriving DecidableEq, Repr

/-- The `VkResult` values distinguished by `Renderer::drawFrame`: success,
`VK_SUBOPTIMAL_KHR`, and everything else (two representative error codes). -/
inductive VkResult where
  | success
  | suboptimalKHR
  | errorDeviceLost
  | errorOutOfDateKHR
deriving DecidableEq, Repr

/-- Constant `Renderer::kInflight` (`VkHelper.h` line 261). -/
def kInflight : Nat := 2

/-- Constant `Renderer::kPreRotationLatency` (`VkHelper.h` line 270). -/
def kPreRotationLatency : Nat := 30

/-- Modulus of the `uint32_t` arithmetic used by the debounce counter. -/
def uint32Mod : Nat := 2 ^ 32

/-- The effect of the C++ prefix decrement `--x` on a `uint32_t`. -/
def decrementU32 (x : Nat) : Nat := (x + (uint32Mod - 1)) % uint32Mod

/-- The renderer state relevant to the presentation loop: the swapchain
related members of `class Renderer` (`VkHelper.h` lines 203-224) plus the
first texture's recorded dimensions (`mTextures[0].width/height`, used by
`recordCommandBuffer`).  Swapchain generations (handle + images + views +
framebuffers) are abstract identifiers. -/
structure RendererState where
  surfaceWidth : Nat
  surfaceHeight : Nat
  imageWidth : Nat
  imageHeight : Nat
  preTransform : SurfaceTransform
  frameCount : Nat
  swapchainGen : Nat
  fireRecreateSwapchain : Bool
  preRotationLatency : Nat
  retireFrame : Nat
  oldSwapchain : Option Nat
  nextGen : Nat
  texWidth : Nat
  texHeight : Nat
deriving DecidableEq, Repr

/-- The results of the device calls made during one `drawFrame`, and the
surface capabilities snapshot the platform would report when probed this
frame (`vkGetPhysicalDeviceSurfaceCapabilitiesKHR`, queried by
`is180Rotation` and `createSwapchain`). -/
structure FrameInput where
  waitFencesRes : VkResult
  resetFencesRes : VkResult
  acquireRes : VkResult
  submitRes : VkResult
  presentRes : VkResult
  surfaceCapsRes : VkResult
  createSwapchainRes : VkResult
  probeTransform : SurfaceTransform
  probeWidth : Nat
  probeHeight : Nat
deriving DecidableEq, Repr

/-- Observable outcome of one `drawFrame` call: the successor state, whether
an `ASSERT` fired (process abort), which retiring generation (if any) was
destroyed by `destroyOldSwapchain`, whether the swapchain swap executed,
which generation the swap retired, and which already-retiring generation had
its handle silently overwritten by the swap (leaked: its resources are never
destroyed afterwards). -/
structure FrameOutcome where
  state : RendererState
  aborted : Bool
  destroyedGen : Option Nat
  swapExecuted : Bool
  outgoingGen : Option Nat
  leakedGen : Option Nat
deriving DecidableEq, Repr

/-- Predicate `Renderer::is180Rotation` (`Renderer.cpp` lines 1395-1413): compares the
freshly probed current transform against the generation's `mPreTransform`. -/
def is180Rotation (currentTransform generationTransform : SurfaceTransform) : Bool :=
  match currentTransform with
  | .identity => generationTransform == .rotate180
  | .rotate90 => generationTransform == .rotate270
  | .rotate180 => generationTransform == .identity
  | .rotate270 => generationTransform == .rotate90
  | _ => false

/-- State update performed by `Renderer::createSwapchain` (`Renderer.cpp`
lines 390-446): records the probed extent as the logical surface size and as
the image extent, swaps the image extent for 90/270 rotations, records the
probed transform, and installs a freshly created swapchain generation. -/
def createSwapchainUpdate (s : RendererState) (probeW probeH : Nat)
    (t : SurfaceTransform) : RendererState :=
  let swapDims := t == SurfaceTransform.rotate90 || t == SurfaceTransform.rotate270
  { s with
    surfaceWidth := probeW
    surfaceHeight := probeH
    imageWidth := if swapDims then probeH else probeW
    imageHeight := if swapDims then probeW else probeH
    preTransform := t
    swapchainGen := s.nextGen
    nextGen := s.nextGen + 1 }

/-- Outcome of a frame aborted by a failed `ASSERT`. -/
def abortedOutcome (s : RendererState) (destroyed : Option Nat) : FrameOutcome :=
  { state := s
    aborted := true
    destroyedGen := destroyed
    swapExecuted := false
    outgoingGen := none
    leakedGen := none }

/-- The swap body of `Renderer::drawFrame` (`Renderer.cpp` lines 109-124):
reset the debounce counter and the resize flag, `std::swap` the current
generation into the old slot (silently overwriting — and thereby leaking —
any generation that was still retiring there), schedule the retire frame,
and recreate the swapchain from a fresh surface probe. -/
def executeSwap (s : RendererState) (inp : FrameInput)
    (destroyed : Option Nat) : FrameOutcome :=
  let leaked := s.oldSwapchain
  let outgoing := s.swapchainGen
  let s1 := { s with
    preRotationLatency := kPreRotationLatency
    fireRecreateSwapchain := false
    oldSwapchain := some outgoing
    retireFrame := s.frameCount + kInflight }
  if inp.surfaceCapsRes ≠ VkResult.success then abortedOutcome s1 destroyed
  else if inp.createSwapchainRes ≠ VkResult.success then abortedOutcome s1 destroyed
  else
    let s2 := createSwapchainUpdate s1 inp.probeWidth inp.probeHeight inp.probeTransform
    { state := { s2 with frameCount := s2.frameCount + 1 }
      aborted := false
      destroyedGen := destroyed
      swapExecuted := true
      outgoingGen := some outgoing
      leakedGen := leaked }

/-- Function `Renderer::drawFrame` (`Renderer.cpp` lines 53-133).  The fenced device
calls (`WaitForFences`, `ResetFences`, `AcquireNextImageKHR`, `QueueSubmit`)
abort on any non-success result; then the present result is inspected, the
retire check runs (`mOldSwapchain != VK_NULL_HANDLE && mRetireFrame ==
mFrameCount` destroys the old generation), and the swap check runs: on
`VK_SUBOPTIMAL_KHR` or a pending resize flag, swap immediately on a
180-degree delta or resize flag, otherwise decrement the debounce counter
and swap only when it reaches zero; any other present result asserts
`ret == VK_SUCCESS`.  The frame counter advances at the end. -/
def drawFrame (s : RendererState) (inp : FrameInput) : FrameOutcome :=
  if inp.waitFencesRes ≠ VkResult.success then abortedOutcome s none
  else if inp.resetFencesRes ≠ VkResult.success then abortedOutcome s none
  else if inp.acquireRes ≠ VkResult.success then abortedOutcome s none
  else if inp.submitRes ≠ VkResult.success then abortedOutcome s none
  else
    let ret := inp.presentRes
    let destroyNow := s.oldSwapchain.isSome ∧ s.retireFrame = s.frameCount
    let destroyed := if destroyNow then s.oldSwapchain else none
    let s1 := if destroyNow then { s with oldSwapchain := none } else s
    if ret = VkResult.suboptimalKHR ∨ s1.fireRecreateSwapchain = true then
      if inp.surfaceCapsRes ≠ VkResult.success then abortedOutcome s1 destroyed
      else if is180Rotation inp.probeTransform s1.preTransform
          || s1.fireRecreateSwapchain then
        executeSwap s1 inp destroyed
      else
        let c := decrementU32 s1.preRotationLatency
        if c = 0 then executeSwap { s1 with preRotationLatency := c } inp destroyed
        else
          { state := { s1 with preRotationLatency := c, frameCount := s1.frameCount + 1 }
            aborted := false
            destroyedGen := destroyed
            swapExecuted := false
            outgoingGen := none
            leakedGen := none }
    else if ret ≠ VkResult.success then abortedOutcome s1 destroyed
    else
      { state := { s1 with frameCount := s1.frameCount + 1 }
        aborted := false
        destroyedGen := destroyed
        swapExecuted := false
        outgoingGen := none
        leakedGen := none }

/-- Function `Renderer::updateSurface` (`Renderer.cpp` lines 135-139): sets the
recreate flag when the notified dimensions differ from the recorded surface
dimensions; touches nothing else. -/
def updateSurface (s : RendererState) (width height : Nat) : RendererState :=
  if s.surfaceWidth ≠ width ∨ s.surfaceHeight ≠ height then
    { s with fireRecreateSwapchain := true }
  else s

/-- Iterated `drawFrame`: the per-frame outcomes in order, and the final
state. -/
def runFrames (s : RendererState) : List FrameInput → List FrameOutcome × RendererState
  | [] => ([], s)
  | inp :: rest =>
    let o := drawFrame s inp
    let r := runFrames o.state rest
    (o :: r.1, r.2)

/-- Number of frames of a run in which the swapchain swap executed. -/
def countSwaps (outcomes : List FrameOutcome) : Nat :=
  (outcomes.filter (fun o => o.swapExecuted)).length

/-- All device calls of a frame report success (the present result is
constrained separately). -/
def allCallsOk (inp : FrameInput) : Prop :=
  inp.waitFencesRes = VkResult.success ∧
  inp.resetFencesRes = VkResult.success ∧
  inp.acquireRes = VkResult.success ∧
  inp.submitRes = VkResult.success ∧
  inp.surfaceCapsRes = VkResult.success ∧
  inp.createSwapchainRes = VkResult.success

instance (inp : FrameInput) : Decidable (allCallsOk inp) := by
  unfold allCallsOk
  infer_instance

/-- A frame input of the kind quantified over by the debounce claims: every
device call succeeds, the present call reports `VK_SUBOPTIMAL_KHR`, and the
probed transform does not differ from the generation transform `t` by 180
degrees. -/
def goodSuboptInput (t : SurfaceTransform) (inp : FrameInput) : Prop :=
  allCallsOk inp ∧
  inp.presentRes = VkResult.suboptimalKHR ∧
  is180Rotation inp.probeTransform t = false

instance (t : SurfaceTransform) (inp : FrameInput) :
    Decidable (goodSuboptInput t inp) := by
  unfold goodSuboptInput
  infer_instance

/-- A 2x2 matrix with integer entries, rows `(a b)` and `(c d)`; the
pre-rotation matrices pushed by `recordCommandBuffer` only ever contain
0, 1 and -1. -/
structure Mat2 where
  a : Int
  b : Int
  c : Int
  d : Int
deriving DecidableEq, Repr

/-- Exact cosine of an angle given in degrees, for the four angles the code
selects (`0`, `90`, `180`, `270`). -/
def cosDeg (deg : Nat) : Int :=
  if deg = 90 then 0 else if deg = 180 then -1 else if deg = 270 then 0 else 1

/-- Exact sine of an angle given in degrees, for the four angles the code
selects. -/
def sinDeg (deg : Nat) : Int :=
  if deg = 90 then 1 else if deg = 180 then 0 else if deg = 270 then -1 else 0

/-- The upper-left 2x2 block of `glm::rotate(mat4(1), radians(deg), z-axis)`
(`Renderer.cpp` line 1351), with the trigonometry evaluated exactly: the
counterclockwise rotation matrix `((cos, -sin), (sin, cos))`. -/
def glmRotate2 (deg : Nat) : Mat2 :=
  { a := cosDeg deg, b := -(sinDeg deg), c := sinDeg deg, d := cosDeg deg }

/-- The `switch (mPreTransform)` of `recordCommandBuffer` (`Renderer.cpp`
lines 1337-1350): the rotation angle in degrees fed to `glm::rotate`; every
unmatched transform falls through to the initial `0.0F`. -/
def rotationDegrees (t : SurfaceTransform) : Nat :=
  match t with
  | .rotate90 => 90
  | .rotate180 => 180
  | .rotate270 => 270
  | _ => 0

/-- The 2x2 pre-rotation matrix pushed to the vertex stage for a given
surface transform (`Renderer.cpp` lines 1336-1357). -/
def preRotateMatrix (t : SurfaceTransform) : Mat2 :=
  glmRotate2 (rotationDegrees t)

/-- The identity 2x2 matrix (rotation by 0 degrees). -/
def mat2Id : Mat2 := { a := 1, b := 0, c := 0, d := 1 }

/-- The per-frame scale factors of `recordCommandBuffer` (`Renderer.cpp`
lines 1328-1334), over `ℚ`: `scaleW`/`scaleH` compare the surface to the
texture per axis, and both axes are renormalised by the smaller one. -/
def sceneScale (surfaceW surfaceH texW texH : ℚ) : ℚ × ℚ :=
  let scaleW := surfaceW / texW
  let scaleH := surfaceH / texH
  let minimalScale := if scaleW < scaleH then scaleW else scaleH
  (minimalScale / scaleW, minimalScale / scaleH)

/-- The scale factors `recordCommandBuffer` computes for a renderer state:
the source reads `mSurfaceWidth`/`mSurfaceHeight` (the logical, unswapped
dimensions) and `mTextures[0].width/height`. -/
def recordedScale (s : RendererState) : ℚ × ℚ :=
  sceneScale (s.surfaceWidth : ℚ) (s.surfaceHeight : ℚ) (s.texWidth : ℚ) (s.texHeight : ℚ)

/-- A renderer state as established by `Renderer::initialize` on a portrait
1080x1920 identity-transform surface, with the sample texture's recorded
dimensions: generation 0 current, no retiring generation, debounce counter
at its seed. -/
def freshState : RendererState :=
  { surfaceWidth := 1080
    surfaceHeight := 1920
    imageWidth := 1080
    imageHeight := 1920
    preTransform := SurfaceTransform.identity
    frameCount := 0
    swapchainGen := 0
    fireRecreateSwapchain := false
    preRotationLatency := kPreRotationLatency
    retireFrame := 0
    oldSwapchain := none
    nextGen := 1
    texWidth := 360
    texHeight := 640 }

/-- A frame input whose device calls all succeed, whose present reports
`VK_SUBOPTIMAL_KHR`, and whose probe reports an identity transform at the
original extent. -/
def suboptInput : FrameInput :=
  { waitFencesRes := VkResult.success
    resetFencesRes := VkResult.success
    acquireRes := VkResult.success
    submitRes := VkResult.success
    presentRes := VkResult.suboptimalKHR
    surfaceCapsRes := VkResult.success
    createSwapchainRes := VkResult.success
    probeTransform := SurfaceTransform.identity
    probeWidth := 1080
    probeHeight := 1920 }

/-- A frame input whose device calls all succeed and whose present reports
`VK_SUCCESS`. -/
def successInput : FrameInput :=
  { suboptInput with presentRes := VkResult.success }

/-- C5: For every probed surface extent (w, h) and transform t,
`createSwapchain` records logical surface dimensions (w, h) and sets the
physical image extent to (h, w) when t is Rotate90 or Rotate270 and to
(w, h) otherwise. -/
theorem c5_swapchain_extent (s : RendererState) (w h : Nat) (t : SurfaceTransform) :
    (createSwapchainUpdate s w h t).surfaceWidth = w ∧
    (createSwapchainUpdate s w h t).surfaceHeight = h ∧
    ((t = SurfaceTransform.rotate90 ∨ t = SurfaceTransform.rotate270) →
      (createSwapchainUpdate s w h t).imageWidth = h ∧
      (createSwapchainUpdate s w h t).imageHeight = w) ∧
    ((t ≠ SurfaceTransform.rotate90 ∧ t ≠ SurfaceTransform.rotate270) →
      (createSwapchainUpdate s w h t).imageWidth = w ∧
      (createSwapchainUpdate s w h t).imageHeight = h) := by
  unfold createSwapchainUpdate
  cases t <;> simp

/-- C5 witness: a surface reporting Rotate90 at 1080x1920 logical yields a
generation whose physical image extent is 1920x1080. -/
theorem c5_witness :
    (createSwapchainUpdate freshState 1080 1920 SurfaceTransform.rotate90).surfaceWidth = 1080 ∧
    (createSwapchainUpdate freshState 1080 1920 SurfaceTransform.rotate90).imageWidth = 1920 ∧
    (createSwapchainUpdate freshState 1080 1920 SurfaceTransform.rotate90).imageHeight = 1080 := by
  have h := c5_swapchain_extent freshState 1080 1920 SurfaceTransform.rotate90
  exact ⟨h.1, (h.2.2.1 (Or.inl rfl)).1, (h.2.2.1 (Or.inl rfl)).2⟩

/-- C6: the 2x2 pre-rotation matrix pushed to the vertex stage is the exact
rotation by 0, 90, 180, 270 degrees for Identity, Rotate90, Rotate180,
Rotate270, and the identity matrix (no correction) for every other surface
transform value. -/
theorem c6_prerotate_matrix :
    preRotateMatrix SurfaceTransform.identity = mat2Id ∧
    preRotateMatrix SurfaceTransform.rotate90 = { a := 0, b := -1, c := 1, d := 0 } ∧
    preRotateMatrix SurfaceTransform.rotate180 = { a := -1, b := 0, c := 0, d := -1 } ∧
    preRotateMatrix SurfaceTransform.rotate270 = { a := 0, b := 1, c := -1, d := 0 } ∧
    ∀ t : SurfaceTransform, t ≠ SurfaceTransform.rotate90 →
      t ≠ SurfaceTransform.rotate180 → t ≠ SurfaceTransform.rotate270 →
      preRotateMatrix t = mat2Id := by
  refine ⟨by decide, by decide, by decide, by decide, ?_⟩
  intro t h1 h2 h3
  revert h1 h2 h3
  cases t <;> decide

/-- C6 witness: a mirrored transform (not one of the four pure rotations)
receives no correction. -/
theorem c6_witness :
    preRotateMatrix SurfaceTransform.horizontalMirror = mat2Id := by
  exact c6_prerotate_matrix.2.2.2.2 SurfaceTransform.horizontalMirror
    (by decide) (by decide) (by decide)

/-- The ternary `scaleW < scaleH ? scaleW : scaleH` computes the minimum. -/
theorem strictIteEqMin (x y : ℚ) : (if x < y then x else y) = min x y := by
  rcases le_or_lt y x with hyx | hxy
  · rw [if_neg (not_lt.mpr hyx), min_eq_right hyx]
  · rw [if_pos hxy, min_eq_left hxy.le]

/-- Closed form of `sceneScale` via `min`. -/
theorem sceneScale_eq (sw sh tw th : ℚ) :
    sceneScale sw sh tw th =
      (min (sw / tw) (sh / th) / (sw / tw), min (sw / tw) (sh / th) / (sh / th)) := by
  unfold sceneScale
  simp only [strictIteEqMin]

/-- C7: for positive logical surface and texture dimensions, the per-frame
scale factors are min(sW, sH)/sW and min(sW, sH)/sH with sW = surfaceW/texW
and sH = surfaceH/texH; neither exceeds 1, at least one equals 1, the
displayed width-to-height ratio equals the texture's native ratio, and
`recordCommandBuffer` feeds the logical (unswapped) surface dimensions into
the computation even when the physical image extent is swapped. -/
theorem c7_scene_scale (sw sh tw th : ℚ)
    (hsw : 0 < sw) (hsh : 0 < sh) (htw : 0 < tw) (hth : 0 < th) :
    (sceneScale sw sh tw th).1 = min (sw / tw) (sh / th) / (sw / tw) ∧
    (sceneScale sw sh tw th).2 = min (sw / tw) (sh / th) / (sh / th) ∧
    (sceneScale sw sh tw th).1 ≤ 1 ∧
    (sceneScale sw sh tw th).2 ≤ 1 ∧
    ((sceneScale sw sh tw th).1 = 1 ∨ (sceneScale sw sh tw th).2 = 1) ∧
    ((sceneScale sw sh tw th).1 * sw) / ((sceneScale sw sh tw th).2 * sh) = tw / th ∧
    (∀ s : RendererState, ∀ w h : Nat,
      recordedScale (createSwapchainUpdate s w h SurfaceTransform.rotate90) =
        sceneScale (w : ℚ) (h : ℚ) (s.texWidth : ℚ) (s.texHeight : ℚ) ∧
      (createSwapchainUpdate s w h SurfaceTransform.rotate90).imageWidth = h) := by
  have hsW : 0 < sw / tw := div_pos hsw htw
  have hsH : 0 < sh / th := div_pos hsh hth
  have hm : 0 < min (sw / tw) (sh / th) := lt_min hsW hsH
  rw [sceneScale_eq]
  refine ⟨rfl, rfl, ?_, ?_, ?_, ?_, ?_⟩
  · exact (div_le_one hsW).mpr (min_le_left _ _)
  · exact (div_le_one hsH).mpr (min_le_right _ _)
  · rcases min_cases (sw / tw) (sh / th) with ⟨hmin, _⟩ | ⟨hmin, _⟩
    · exact Or.inl (by rw [hmin, div_self hsW.ne'])
    · exact Or.inr (by rw [hmin, div_self hsH.ne'])
  · have h1 : (min (sw / tw) (sh / th) / (sw / tw)) * sw = min (sw / tw) (sh / th) * tw := by
      field_simp
    have h2 : (min (sw / tw) (sh / th) / (sh / th)) * sh = min (sw / tw) (sh / th) * th := by
      field_simp
    rw [h1, h2, mul_div_mul_left _ _ hm.ne']
  · intro s w h
    constructor
    · rfl
    · rfl

/-- C7 witness: a 1080x1920 surface with a 360x500 texture letterboxes: the
y-axis scale is 1 and the x-axis scale stays below 1. -/
theorem c7_witness :
    (sceneScale 1080 1920 360 500).1 ≤ 1 ∧
    ((sceneScale 1080 1920 360 500).1 * 1080) / ((sceneScale 1080 1920 360 500).2 * 1920) =
      360 / 500 := by
  have h := c7_scene_scale 1080 1920 360 500 (by norm_num) (by norm_num) (by norm_num)
    (by norm_num)
  exact ⟨h.2.2.1, h.2.2.2.2.2.1⟩

/-- C9: `updateSurface` sets the recreate flag exactly when the notified
dimensions differ from the recorded surface dimensions, and modifies no
other renderer field; when the dimensions match it is the identity. -/
theorem c9_update_surface (s : RendererState) (w h : Nat) :
    ((s.surfaceWidth ≠ w ∨ s.surfaceHeight ≠ h) →
      (updateSurface s w h).fireRecreateSwapchain = true) ∧
    ((s.surfaceWidth = w ∧ s.surfaceHeight = h) → updateSurface s w h = s) ∧
    (updateSurface s w h).fireRecreateSwapchain =
      (s.fireRecreateSwapchain || decide (s.surfaceWidth ≠ w ∨ s.surfaceHeight ≠ h)) ∧
    (updateSurface s w h).surfaceWidth = s.surfaceWidth ∧
    (updateSurface s w h).surfaceHeight = s.surfaceHeight ∧
    (updateSurface s w h).imageWidth = s.imageWidth ∧
    (updateSurface s w h).imageHeight = s.imageHeight ∧
    (updateSurface s w h).preTransform = s.preTransform ∧
    (updateSurface s w h).frameCount = s.frameCount ∧
    (updateSurface s w h).swapchainGen = s.swapchainGen ∧
    (updateSurface s w h).preRotationLatency = s.preRotationLatency ∧
    (updateSurface s w h).retireFrame = s.retireFrame ∧
    (updateSurface s w h).oldSwapchain = s.oldSwapchain ∧
    (updateSurface s w h).nextGen = s.nextGen ∧
    (updateSurface s w h).texWidth = s.texWidth ∧
    (updateSurface s w h).texHeight = s.texHeight := by
  unfold updateSurface
  by_cases hc : s.surfaceWidth ≠ w ∨ s.surfaceHeight ≠ h
  · rw [if_pos hc]
    refine ⟨fun _ => rfl, ?_, ?_, rfl, rfl, rfl, rfl, rfl, rfl, rfl, rfl, rfl, rfl, rfl,
      rfl, rfl⟩
    · rintro ⟨he1, he2⟩
      rcases hc with hne | hne
      · exact absurd he1 hne
      · exact absurd he2 hne
    · simp [hc]
  · rw [if_neg hc]
    refine ⟨fun hd => absurd hd hc, fun _ => rfl, ?_, rfl, rfl, rfl, rfl, rfl, rfl, rfl,
      rfl, rfl, rfl, rfl, rfl, rfl⟩
    simp [hc]

/-- When the surface probe and swapchain creation succeed, the swap body
produces the fully described successor state and outcome. -/
theorem executeSwap_ok (s : RendererState) (inp : FrameInput) (d : Option Nat)
    (h5 : inp.surfaceCapsRes = VkResult.success)
    (h6 : inp.createSwapchainRes = VkResult.success) :
    executeSwap s inp d =
      { state :=
          { createSwapchainUpdate s inp.probeWidth inp.probeHeight inp.probeTransform with
            preRotationLatency := kPreRotationLatency
            fireRecreateSwapchain := false
            oldSwapchain := some s.swapchainGen
            retireFrame := s.frameCount + kInflight
            frameCount := s.frameCount + 1 }
        aborted := false
        destroyedGen := d
        swapExecuted := true
        outgoingGen := some s.swapchainGen
        leakedGen := s.oldSwapchain } := by
  unfold executeSwap
  rw [h5, h6]
  simp [createSwapchainUpdate]

/-- C3: when present reports suboptimal and the probed transform differs
from the generation's transform by 180 degrees, drawFrame executes the swap
on that very frame regardless of the debounce counter's value, and the
counter is not decremented (it ends at the seed, which is no less than its
previous value). -/
theorem c3_immediate_swap_on_180 (s : RendererState) (inp : FrameInput)
    (hok : allCallsOk inp) (hret : inp.presentRes = VkResult.suboptimalKHR)
    (h180 : is180Rotation inp.probeTransform s.preTransform = true)
    (hinv : s.preRotationLatency ≤ kPreRotationLatency) :
    (drawFrame s inp).swapExecuted = true ∧
    (drawFrame s inp).aborted = false ∧
    (drawFrame s inp).state.preRotationLatency = kPreRotationLatency ∧
    s.preRotationLatency ≤ (drawFrame s inp).state.preRotationLatency := by
  obtain ⟨h1, h2, h3, h4, h5, h6⟩ := hok
  unfold drawFrame
  rw [h1, h2, h3, h4, hret]
  by_cases hd : s.oldSwapchain.isSome ∧ s.retireFrame = s.frameCount
  · simp only [if_pos hd]
    simp [h5, h6, h180, executeSwap_ok, hinv]
  · simp only [if_neg hd]
    simp [h5, h6, h180, executeSwap_ok, hinv]

/-- C3 witness: a fresh identity-transform generation seeing a Rotate180
probe on a suboptimal present swaps at once with the counter back at its
seed. -/
theorem c3_witness :
    (drawFrame freshState
      { suboptInput with probeTransform := SurfaceTransform.rotate180 }).swapExecuted = true ∧
    (drawFrame freshState
      { suboptInput with
        probeTransform := SurfaceTransform.rotate180 }).state.preRotationLatency =
      kPreRotationLatency := by
  have h := c3_immediate_swap_on_180 freshState
    { suboptInput with probeTransform := SurfaceTransform.rotate180 }
    (by constructor <;> simp [suboptInput]) (by rfl) (by decide) (by decide)
  exact ⟨h.1, h.2.2.1⟩

/-- Any frame in which the swap executed (with the device calls succeeding)
ends in exactly the post-swap state: counter reseeded, resize flag cleared,
the previously current generation in the retiring slot, the retire frame
scheduled `kInflight` ahead, a fresh generation installed from the probe
snapshot, and the frame counter advanced by one. -/
theorem drawFrame_swap_shape (s : RendererState) (inp : FrameInput)
    (hok : allCallsOk inp) (hswap : (drawFrame s inp).swapExecuted = true) :
    (drawFrame s inp).state =
      { createSwapchainUpdate s inp.probeWidth inp.probeHeight inp.probeTransform with
        preRotationLatency := kPreRotationLatency
        fireRecreateSwapchain := false
        oldSwapchain := some s.swapchainGen
        retireFrame := s.frameCount + kInflight
        frameCount := s.frameCount + 1 } ∧
    (drawFrame s inp).outgoingGen = some s.swapchainGen ∧
    (drawFrame s inp).aborted = false := by
  obtain ⟨h1, h2, h3, h4, h5, h6⟩ := hok
  have hns : ¬ (VkResult.success ≠ VkResult.success) := by simp
  unfold drawFrame at hswap ⊢
  rw [h1, h2, h3, h4] at hswap ⊢
  simp only [if_neg hns] at hswap ⊢
  by_cases hd : s.oldSwapchain.isSome = true ∧ s.retireFrame = s.frameCount
  · simp only [if_pos hd] at hswap ⊢
    by_cases htrig : inp.presentRes = VkResult.suboptimalKHR ∨
        ({ s with oldSwapchain := none } : RendererState).fireRecreateSwapchain = true
    · simp only [if_pos htrig] at hswap ⊢
      rw [h5] at hswap ⊢
      simp only [if_neg hns] at hswap ⊢
      by_cases hb : (is180Rotation inp.probeTransform
          ({ s with oldSwapchain := none } : RendererState).preTransform
          || ({ s with oldSwapchain := none } : RendererState).fireRecreateSwapchain) = true
      · simp only [if_pos hb] at hswap ⊢
        rw [executeSwap_ok _ _ _ h5 h6]
        exact ⟨rfl, rfl, rfl⟩
      · simp only [if_neg hb] at hswap ⊢
        by_cases hc0 : decrementU32
            ({ s with oldSwapchain := none } : RendererState).preRotationLatency = 0
        · simp only [if_pos hc0] at hswap ⊢
          rw [executeSwap_ok _ _ _ h5 h6]
          refine ⟨?_, rfl, rfl⟩
          simp [createSwapchainUpdate]
        · simp only [if_neg hc0] at hswap
          exact absurd hswap (by simp)
    · simp only [if_neg htrig] at hswap
      simp [apply_ite FrameOutcome.swapExecuted, abortedOutcome] at hswap
  · simp only [if_neg hd] at hswap ⊢
    by_cases htrig : inp.presentRes = VkResult.suboptimalKHR ∨
        s.fireRecreateSwapchain = true
    · simp only [if_pos htrig] at hswap ⊢
      rw [h5] at hswap ⊢
      simp only [if_neg hns] at hswap ⊢
      by_cases hb : (is180Rotation inp.probeTransform s.preTransform
          || s.fireRecreateSwapchain) = true
      · simp only [if_pos hb] at hswap ⊢
        rw [executeSwap_ok _ _ _ h5 h6]
        exact ⟨rfl, rfl, rfl⟩
      · simp only [if_neg hb] at hswap ⊢
        by_cases hc0 : decrementU32 s.preRotationLatency = 0
        · simp only [if_pos hc0] at hswap ⊢
          rw [executeSwap_ok _ _ _ h5 h6]
          refine ⟨?_, rfl, rfl⟩
          simp [createSwapchainUpdate]
        · simp only [if_neg hc0] at hswap
          exact absurd hswap (by simp)
    · simp only [if_neg htrig] at hswap
      simp [apply_ite FrameOutcome.swapExecuted, abortedOutcome] at hswap

/-- A frame with a successful present, no resize pending and the retire
frame not yet reached merely advances the frame counter. -/
theorem drawFrame_success_step (s : RendererState) (inp : FrameInput)
    (hok : allCallsOk inp) (hp : inp.presentRes = VkResult.success)
    (hfire : s.fireRecreateSwapchain = false)
    (hnr : s.retireFrame ≠ s.frameCount) :
    drawFrame s inp =
      { state := { s with frameCount := s.frameCount + 1 }
        aborted := false
        destroyedGen := none
        swapExecuted := false
        outgoingGen := none
        leakedGen := none } := by
  obtain ⟨h1, h2, h3, h4, h5, h6⟩ := hok
  unfold drawFrame
  rw [h1, h2, h3, h4, hp]
  have hd : ¬ (s.oldSwapchain.isSome = true ∧ s.retireFrame = s.frameCount) := by
    rintro ⟨-, hr⟩
    exact hnr hr
  simp [hd, hfire]

/-- A frame with a successful present and no resize pending, arriving on the
scheduled retire frame of a retiring generation, destroys that generation
and advances the frame counter. -/
theorem drawFrame_retire_step (s : RendererState) (inp : FrameInput) (g : Nat)
    (hok : allCallsOk inp) (hp : inp.presentRes = VkResult.success)
    (hfire : s.fireRecreateSwapchain = false)
    (hold : s.oldSwapchain = some g) (hr : s.retireFrame = s.frameCount) :
    drawFrame s inp =
      { state := { s with oldSwapchain := none, frameCount := s.frameCount + 1 }
        aborted := false
        destroyedGen := some g
        swapExecuted := false
        outgoingGen := none
        leakedGen := none } := by
  obtain ⟨h1, h2, h3, h4, h5, h6⟩ := hok
  unfold drawFrame
  rw [h1, h2, h3, h4, hp]
  have hd : s.oldSwapchain.isSome = true ∧ s.retireFrame = s.frameCount := by
    constructor
    · rw [hold]
      rfl
    · exact hr
  simp [hd, hold, hfire]

/-- C2 counterexample: a second swap (triggered by a second resize
notification) executes one frame after a first swap, while the first swap's
outgoing generation 0 is still retiring; generation 0's handle is silently
overwritten, and at the frame whose counter equals the swap frame plus
kInflight nothing is destroyed — generation 0 is never destroyed, refuting
"destroyed exactly at F + kInflight". -/
theorem c2_counterexample :
    (drawFrame (updateSurface freshState 800 600) successInput).swapExecuted = true ∧
    (drawFrame (updateSurface freshState 800 600) successInput).outgoingGen = some 0 ∧
    (updateSurface freshState 800 600).frameCount = 0 ∧
    (drawFrame (updateSurface
        (drawFrame (updateSurface freshState 800 600) successInput).state 300 400)
      successInput).swapExecuted = true ∧
    (drawFrame (updateSurface
        (drawFrame (updateSurface freshState 800 600) successInput).state 300 400)
      successInput).leakedGen = some 0 ∧
    (drawFrame (drawFrame (updateSurface
        (drawFrame (updateSurface freshState 800 600) successInput).state 300 400)
      successInput).state successInput).state.frameCount = 0 + kInflight + 1 ∧
    (drawFrame (drawFrame (updateSurface
        (drawFrame (updateSurface freshState 800 600) successInput).state 300 400)
      successInput).state successInput).destroyedGen = none := by
  decide

/-- C2 amended: for every frame F at which a swap executes, provided the
following kInflight frames present successfully with no new swap trigger,
the outgoing generation is destroyed exactly at the frame whose counter
equals F + kInflight and not at the intervening frame; a second swap inside
that window instead silently leaks the outgoing generation (see the
counterexample). -/
theorem c2_retire_amended (s : RendererState) (inp i1 i2 : FrameInput)
    (hok : allCallsOk inp) (hswap : (drawFrame s inp).swapExecuted = true)
    (h1ok : allCallsOk i1) (h1p : i1.presentRes = VkResult.success)
    (h2ok : allCallsOk i2) (h2p : i2.presentRes = VkResult.success) :
    (drawFrame (drawFrame s inp).state i1).destroyedGen = none ∧
    (drawFrame (drawFrame s inp).state i1).swapExecuted = false ∧
    (drawFrame (drawFrame s inp).state i1).state.frameCount = s.frameCount + kInflight ∧
    (drawFrame (drawFrame (drawFrame s inp).state i1).state i2).destroyedGen =
      some s.swapchainGen ∧
    (drawFrame (drawFrame (drawFrame s inp).state i1).state i2).state.frameCount =
      s.frameCount + kInflight + 1 := by
  obtain ⟨hst, -, -⟩ := drawFrame_swap_shape s inp hok hswap
  have h1eq : drawFrame (drawFrame s inp).state i1 =
      { state := { (drawFrame s inp).state with
                    frameCount := (drawFrame s inp).state.frameCount + 1 }
        aborted := false
        destroyedGen := none
        swapExecuted := false
        outgoingGen := none
        leakedGen := none } := by
    apply drawFrame_success_step _ _ h1ok h1p
    · rw [hst]
    · rw [hst]
      show s.frameCount + kInflight ≠ s.frameCount + 1
      simp [kInflight]
  have h2eq : drawFrame (drawFrame (drawFrame s inp).state i1).state i2 =
      { state := { (drawFrame (drawFrame s inp).state i1).state with
                    oldSwapchain := none
                    frameCount := (drawFrame (drawFrame s inp).state i1).state.frameCount + 1 }
        aborted := false
        destroyedGen := some s.swapchainGen
        swapExecuted := false
        outgoingGen := none
        leakedGen := none } := by
    apply drawFrame_retire_step _ _ s.swapchainGen h2ok h2p
    · rw [h1eq, hst]
    · rw [h1eq, hst]
    · rw [h1eq, hst]
      show s.frameCount + kInflight = s.frameCount + 1 + 1
      simp [kInflight]
  refine ⟨?_, ?_, ?_, ?_, ?_⟩
  · rw [h1eq]
  · rw [h1eq]
  · rw [h1eq, hst]
    show s.frameCount + 1 + 1 = s.frameCount + kInflight
    simp [kInflight]
  · rw [h2eq]
  · rw [h2eq, h1eq, hst]
    show s.frameCount + 1 + 1 + 1 = s.frameCount + kInflight + 1
    simp [kInflight]

/-- C2 witness: a resize-triggered swap from the fresh state retires
generation 0 exactly two frames later. -/
theorem c2_witness :
    (drawFrame (drawFrame (drawFrame (updateSurface freshState 640 480)
        successInput).state successInput).state successInput).destroyedGen = some 0 ∧
    (drawFrame (drawFrame (drawFrame (updateSurface freshState 640 480)
        successInput).state successInput).state successInput).state.frameCount =
      0 + kInflight + 1 := by
  have h := c2_retire_amended (updateSurface freshState 640 480) successInput
    successInput successInput (by decide) (by decide) (by decide) (by decide)
    (by decide) (by decide)
  exact ⟨h.2.2.2.1, h.2.2.2.2⟩

/-- For counter values in the uint32 range, the prefix decrement is plain
subtraction by one. -/
theorem decrementU32_eq_sub (x : Nat) (h1 : 1 ≤ x) (h2 : x < uint32Mod) :
    decrementU32 x = x - 1 := by
  have hm : uint32Mod = 4294967296 := by norm_num [uint32Mod]
  unfold decrementU32
  rw [hm] at h2 ⊢
  omega

/-- C4 counterexample: one frame after a resize-triggered swap, a second
resize notification triggers a second swap while generation 0 is still
retiring; the code executes it silently — no assertion fires (`aborted =
false`) — and generation 0's handle is overwritten and leaked. -/
theorem c4_counterexample :
    (drawFrame (updateSurface freshState 700 900) successInput).outgoingGen = some 0 ∧
    (updateSurface (drawFrame (updateSurface freshState 700 900) successInput).state
      640 480).oldSwapchain = some 0 ∧
    (drawFrame (updateSurface (drawFrame (updateSurface freshState 700 900)
        successInput).state 640 480) successInput).swapExecuted = true ∧
    (drawFrame (updateSurface (drawFrame (updateSurface freshState 700 900)
        successInput).state 640 480) successInput).leakedGen = some 0 ∧
    (drawFrame (updateSurface (drawFrame (updateSurface freshState 700 900)
        successInput).state 640 480) successInput).aborted = false := by
  decide

/-- C4 amended: along the debounce-only path (no resize pending and no
180-degree delta reported) a frame whose counter exceeds 1 executes no swap
at all — in particular never while a generation is retiring — and every
executed swap reseeds the counter to 30, so the counter path cannot fire
again inside the kInflight-frame retire window; but a swap triggered by a
resize or a 180-degree delta while a generation is retiring is handled
silently, leaking the retiring generation, with no assertion (see the
counterexample). -/
theorem c4_single_retire_amended (s : RendererState) (inp : FrameInput)
    (hfire : s.fireRecreateSwapchain = false)
    (h180 : is180Rotation inp.probeTransform s.preTransform = false)
    (hc : 1 < s.preRotationLatency)
    (hcle : s.preRotationLatency ≤ kPreRotationLatency) :
    (drawFrame s inp).swapExecuted = false ∧
    (drawFrame s inp).leakedGen = none ∧
    (∀ (s2 : RendererState) (j : FrameInput), allCallsOk j →
      (drawFrame s2 j).swapExecuted = true →
      (drawFrame s2 j).state.preRotationLatency = kPreRotationLatency) := by
  have hc0 : decrementU32 s.preRotationLatency ≠ 0 := by
    have hlt : s.preRotationLatency < uint32Mod := by
      have : kPreRotationLatency < uint32Mod := by
        norm_num [kPreRotationLatency, uint32Mod]
      omega
    rw [decrementU32_eq_sub s.preRotationLatency (by omega) hlt]
    omega
  have hmain : (drawFrame s inp).swapExecuted = false ∧
      (drawFrame s inp).leakedGen = none := by
    unfold drawFrame
    simp [h180, hfire, hc0, abortedOutcome,
      apply_ite FrameOutcome.swapExecuted, apply_ite FrameOutcome.leakedGen,
      apply_ite RendererState.fireRecreateSwapchain, apply_ite RendererState.preTransform,
      apply_ite RendererState.preRotationLatency]
  refine ⟨hmain.1, hmain.2, ?_⟩
  intro s2 j hjok hjswap
  rw [(drawFrame_swap_shape s2 j hjok hjswap).1]

/-- C4 witness: a suboptimal frame from the fresh state (counter at its
seed of 30) neither swaps nor touches any retiring generation. -/
theorem c4_witness :
    (drawFrame freshState suboptInput).swapExecuted = false ∧
    (drawFrame freshState suboptInput).leakedGen = none := by
  have h := c4_single_retire_amended freshState suboptInput (by decide) (by decide)
    (by decide) (by decide)
  exact ⟨h.1, h.2.1⟩

/-- One frame with a suboptimal present, no 180-degree delta, no resize
pending, no retiring generation and the counter above 1 merely decrements
the counter and advances the frame counter. -/
theorem drawFrame_subopt_step (s : RendererState) (inp : FrameInput)
    (hold : s.oldSwapchain = none) (hfire : s.fireRecreateSwapchain = false)
    (hc1 : 1 < s.preRotationLatency)
    (hle : s.preRotationLatency ≤ kPreRotationLatency)
    (hgood : goodSuboptInput s.preTransform inp) :
    drawFrame s inp =
      { state := { s with preRotationLatency := s.preRotationLatency - 1
                          frameCount := s.frameCount + 1 }
        aborted := false
        destroyedGen := none
        swapExecuted := false
        outgoingGen := none
        leakedGen := none } := by
  obtain ⟨⟨h1, h2, h3, h4, h5, h6⟩, hret, h180⟩ := hgood
  have hlt : s.preRotationLatency < uint32Mod := by
    have : kPreRotationLatency < uint32Mod := by
      norm_num [kPreRotationLatency, uint32Mod]
    omega
  have hdec : decrementU32 s.preRotationLatency = s.preRotationLatency - 1 :=
    decrementU32_eq_sub _ (by omega) hlt
  have hc0 : ¬ (s.preRotationLatency - 1 = 0) := by omega
  unfold drawFrame
  rw [h1, h2, h3, h4, hret]
  simp [hold, hfire, h180, hc0, hdec, h5]

/-- One frame with a suboptimal present, no 180-degree delta, no resize
pending and no retiring generation, with the counter at exactly 1, fires the
debounced swap and reseeds the counter. -/
theorem drawFrame_subopt_fire (s : RendererState) (inp : FrameInput)
    (hold : s.oldSwapchain = none) (hfire : s.fireRecreateSwapchain = false)
    (hc1 : s.preRotationLatency = 1)
    (hgood : goodSuboptInput s.preTransform inp) :
    (drawFrame s inp).swapExecuted = true ∧
    (drawFrame s inp).aborted = false ∧
    (drawFrame s inp).destroyedGen = none ∧
    (drawFrame s inp).state.preRotationLatency = kPreRotationLatency := by
  obtain ⟨⟨h1, h2, h3, h4, h5, h6⟩, hret, h180⟩ := hgood
  have hdec : decrementU32 s.preRotationLatency = 0 := by
    rw [hc1]
    rw [decrementU32_eq_sub 1 (by omega) (by norm_num [uint32Mod])]
  unfold drawFrame
  rw [h1, h2, h3, h4, hret]
  simp [hold, hfire, h180, hdec, h5, h6, executeSwap_ok]

/-- Along a run of suboptimal, non-180, no-resize frames shorter than the
debounce counter, with no retiring generation pending, no swap, teardown or
abort occurs, and only the counter and the frame counter change. -/
theorem runFrames_subopt_noSwap (inps : List FrameInput) (s : RendererState)
    (hold : s.oldSwapchain = none) (hfire : s.fireRecreateSwapchain = false)
    (hlen : inps.length < s.preRotationLatency)
    (hle : s.preRotationLatency ≤ kPreRotationLatency)
    (hgood : ∀ inp ∈ inps, goodSuboptInput s.preTransform inp) :
    (runFrames s inps).2 =
      { s with preRotationLatency := s.preRotationLatency - inps.length
               frameCount := s.frameCount + inps.length } ∧
    ∀ o ∈ (runFrames s inps).1,
      o.swapExecuted = false ∧ o.destroyedGen = none ∧ o.aborted = false := by
  induction inps generalizing s with
  | nil =>
    refine ⟨by simp [runFrames], by simp [runFrames]⟩
  | cons inp rest ih =>
    have hc1 : 1 < s.preRotationLatency := by
      simp only [List.length_cons] at hlen
      omega
    have hstep := drawFrame_subopt_step s inp hold hfire hc1 hle
      (hgood inp (List.mem_cons_self inp rest))
    have hrest := ih { s with preRotationLatency := s.preRotationLatency - 1
                              frameCount := s.frameCount + 1 }
      hold hfire
      (by show rest.length < s.preRotationLatency - 1
          simp only [List.length_cons] at hlen
          omega)
      (by show s.preRotationLatency - 1 ≤ kPreRotationLatency
          omega)
      (fun j hj => hgood j (List.mem_cons_of_mem inp hj))
    have hrun : runFrames s (inp :: rest) =
        (drawFrame s inp :: (runFrames (drawFrame s inp).state rest).1,
          (runFrames (drawFrame s inp).state rest).2) := rfl
    refine ⟨?_, ?_⟩
    · rw [hrun]
      simp only [hstep]
      rw [hrest.1]
      simp [RendererState.mk.injEq, List.length_cons]
      omega
    · intro o ho
      rw [hrun] at ho
      rcases List.mem_cons.mp ho with rfl | hmem
      · rw [hstep]
        exact ⟨rfl, rfl, rfl⟩
      · rw [hstep] at hmem
        exact hrest.2 o hmem

/-- Iterated frames over an appended input list decompose. -/
theorem runFrames_append (s : RendererState) (l1 l2 : List FrameInput) :
    runFrames s (l1 ++ l2) =
      ((runFrames s l1).1 ++ (runFrames (runFrames s l1).2 l2).1,
        (runFrames (runFrames s l1).2 l2).2) := by
  induction l1 generalizing s with
  | nil => rfl
  | cons a l ih => simp [runFrames, ih]

/-- Additivity of `countSwaps` over appended outcome lists. -/
theorem countSwaps_append (os1 os2 : List FrameOutcome) :
    countSwaps (os1 ++ os2) = countSwaps os1 + countSwaps os2 := by
  simp [countSwaps]

/-- A run without any executed swap contributes zero to `countSwaps`. -/
theorem countSwaps_eq_zero (os : List FrameOutcome)
    (h : ∀ o ∈ os, o.swapExecuted = false) : countSwaps os = 0 := by
  induction os with
  | nil => rfl
  | cons o rest ih =>
    have ho := h o (List.mem_cons_self o rest)
    have hr := ih (fun x hx => h x (List.mem_cons_of_mem o hx))
    simp only [countSwaps, List.filter_cons, ho] at hr ⊢
    simpa using hr

/-- C1 counterexample: the claim quantifies over every state whose counter
holds the seed 30, but immediately after a swap the counter already holds 30
while the outgoing generation is still retiring; two consecutive suboptimal
frames with no 180-degree delta and no resize pending then tear down that
generation on the second frame — a resource teardown within the first 29
frames of the run, contrary to the claim. -/
theorem c1_counterexample :
    (drawFrame (updateSurface freshState 900 901)
      successInput).state.preRotationLatency = kPreRotationLatency ∧
    (drawFrame (updateSurface freshState 900 901)
      successInput).state.fireRecreateSwapchain = false ∧
    goodSuboptInput (drawFrame (updateSurface freshState 900 901)
      successInput).state.preTransform suboptInput ∧
    (runFrames (drawFrame (updateSurface freshState 900 901) successInput).state
      [suboptInput, suboptInput]).1.map (fun o => o.swapExecuted) = [false, false] ∧
    (runFrames (drawFrame (updateSurface freshState 900 901) successInput).state
      [suboptInput, suboptInput]).1.map (fun o => o.destroyedGen) = [none, some 0] := by
  decide

/-- C1 amended: starting from a state whose counter holds the seed 30 AND
with no retiring generation pending teardown, a run of 29 consecutive
suboptimal frames (each with every device call succeeding, no 180-degree
delta and no resize pending) performs no swap and no teardown, and the 30th
such frame executes exactly one swap, resetting the counter to 30. -/
theorem c1_debounce_amended (s : RendererState) (first : List FrameInput)
    (last : FrameInput)
    (hold : s.oldSwapchain = none) (hfire : s.fireRecreateSwapchain = false)
    (hc : s.preRotationLatency = kPreRotationLatency)
    (hlen : first.length = kPreRotationLatency - 1)
    (hgoodf : ∀ inp ∈ first, goodSuboptInput s.preTransform inp)
    (hgoodl : goodSuboptInput s.preTransform last) :
    (∀ o ∈ (runFrames s first).1,
      o.swapExecuted = false ∧ o.destroyedGen = none) ∧
    (drawFrame (runFrames s first).2 last).swapExecuted = true ∧
    (drawFrame (runFrames s first).2 last).state.preRotationLatency =
      kPreRotationLatency ∧
    countSwaps (runFrames s (first ++ [last])).1 = 1 := by
  have hrun := runFrames_subopt_noSwap first s hold hfire
    (by rw [hc, hlen]; norm_num [kPreRotationLatency]) (le_of_eq hc) hgoodf
  have hmid : (runFrames s first).2 =
      { s with preRotationLatency := 1
               frameCount := s.frameCount + first.length } := by
    rw [hrun.1]
    simp [RendererState.mk.injEq, hc, hlen, kPreRotationLatency]
  have hfired := drawFrame_subopt_fire (runFrames s first).2 last
    (by rw [hmid]; exact hold) (by rw [hmid]; exact hfire) (by rw [hmid])
    (by rw [hmid]; exact hgoodl)
  refine ⟨fun o ho => ⟨(hrun.2 o ho).1, (hrun.2 o ho).2.1⟩, hfired.1, hfired.2.2.2, ?_⟩
  rw [runFrames_append, countSwaps_append]
  rw [countSwaps_eq_zero (runFrames s first).1 (fun o ho => (hrun.2 o ho).1)]
  have hone : (runFrames (runFrames s first).2 [last]).1 =
      [drawFrame (runFrames s first).2 last] := rfl
  rw [hone]
  simp [countSwaps, hfired.1]

/-- C1 witness: from the fresh state (counter 30, nothing retiring), 29
suboptimal frames do not swap and the 30th does, exactly once, with the
counter reseeded. -/
theorem c1_witness :
    (drawFrame (runFrames freshState
      (List.replicate 29 suboptInput)).2 suboptInput).swapExecuted = true ∧
    (drawFrame (runFrames freshState
      (List.replicate 29 suboptInput)).2 suboptInput).state.preRotationLatency =
      kPreRotationLatency ∧
    countSwaps (runFrames freshState
      (List.replicate 29 suboptInput ++ [suboptInput])).1 = 1 := by
  have h := c1_debounce_amended freshState (List.replicate 29 suboptInput) suboptInput
    (by decide) (by decide) (by decide) (by decide)
    (by decide) (by decide)
  exact ⟨h.2.1, h.2.2.1, h.2.2.2⟩

/-- C8 counterexample: with a resize notification pending
(`mFireRecreateSwapchain == true`), a present result that is neither success
nor suboptimal (here `VK_ERROR_DEVICE_LOST`) does NOT abort the process,
contrary to the claim: the frame takes the swap branch and recreates the
swapchain, swallowing the error. -/
theorem c8_counterexample :
    (updateSurface freshState 500 500).fireRecreateSwapchain = true ∧
    (drawFrame (updateSurface freshState 500 500)
      { suboptInput with presentRes := VkResult.errorDeviceLost }).aborted = false ∧
    (drawFrame (updateSurface freshState 500 500)
      { suboptInput with presentRes := VkResult.errorDeviceLost }).swapExecuted = true := by
  decide

/-- C8 amended: drawFrame never aborts on a suboptimal present (with the
other device calls succeeding); every non-success result of one of the other
device calls made during the frame aborts; and a present result other than
success or suboptimal aborts only when no resize notification is pending —
with the flag set, the error is swallowed by the swap branch. -/
theorem c8_error_policy_amended :
    (∀ (s : RendererState) (inp : FrameInput), allCallsOk inp →
      inp.presentRes = VkResult.suboptimalKHR → (drawFrame s inp).aborted = false) ∧
    (∀ (s : RendererState) (inp : FrameInput), inp.waitFencesRes ≠ VkResult.success →
      (drawFrame s inp).aborted = true) ∧
    (∀ (s : RendererState) (inp : FrameInput), inp.resetFencesRes ≠ VkResult.success →
      (drawFrame s inp).aborted = true) ∧
    (∀ (s : RendererState) (inp : FrameInput), inp.acquireRes ≠ VkResult.success →
      (drawFrame s inp).aborted = true) ∧
    (∀ (s : RendererState) (inp : FrameInput), inp.submitRes ≠ VkResult.success →
      (drawFrame s inp).aborted = true) ∧
    (∀ (s : RendererState) (inp : FrameInput),
      (inp.presentRes = VkResult.suboptimalKHR ∨ s.fireRecreateSwapchain = true) →
      inp.surfaceCapsRes ≠ VkResult.success →
      inp.waitFencesRes = VkResult.success → inp.resetFencesRes = VkResult.success →
      inp.acquireRes = VkResult.success → inp.submitRes = VkResult.success →
      (drawFrame s inp).aborted = true) ∧
    (∀ (s : RendererState) (inp : FrameInput), inp.presentRes ≠ VkResult.success →
      inp.presentRes ≠ VkResult.suboptimalKHR → s.fireRecreateSwapchain = false →
      (drawFrame s inp).aborted = true) := by
  refine ⟨?_, ?_, ?_, ?_, ?_, ?_, ?_⟩
  · intro s inp hok hret
    obtain ⟨h1, h2, h3, h4, h5, h6⟩ := hok
    unfold drawFrame
    rw [h1, h2, h3, h4, hret]
    by_cases hd : s.oldSwapchain.isSome ∧ s.retireFrame = s.frameCount
    · simp only [if_pos hd]
      simp [h5, h6, executeSwap_ok, apply_ite FrameOutcome.aborted]
    · simp only [if_neg hd]
      simp [h5, h6, executeSwap_ok, apply_ite FrameOutcome.aborted]
  · intro s inp hw
    unfold drawFrame
    rw [if_pos hw]
    rfl
  · intro s inp hr
    unfold drawFrame
    by_cases hw : inp.waitFencesRes ≠ VkResult.success
    · rw [if_pos hw]
      rfl
    · rw [if_neg hw, if_pos hr]
      rfl
  · intro s inp ha
    unfold drawFrame
    by_cases hw : inp.waitFencesRes ≠ VkResult.success
    · rw [if_pos hw]
      rfl
    · rw [if_neg hw]
      by_cases hr : inp.resetFencesRes ≠ VkResult.success
      · rw [if_pos hr]
        rfl
      · rw [if_neg hr, if_pos ha]
        rfl
  · intro s inp hq
    unfold drawFrame
    by_cases hw : inp.waitFencesRes ≠ VkResult.success
    · rw [if_pos hw]
      rfl
    · rw [if_neg hw]
      by_cases hr : inp.resetFencesRes ≠ VkResult.success
      · rw [if_pos hr]
        rfl
      · rw [if_neg hr]
        by_cases ha : inp.acquireRes ≠ VkResult.success
        · rw [if_pos ha]
          rfl
        · rw [if_neg ha, if_pos hq]
          rfl
  · intro s inp htrig hcaps h1 h2 h3 h4
    unfold drawFrame
    rw [h1, h2, h3, h4]
    by_cases hd : s.oldSwapchain.isSome ∧ s.retireFrame = s.frameCount
    · simp only [if_pos hd]
      rcases htrig with hret | hfire
      · simp [hret, hcaps, abortedOutcome]
      · simp [hfire, hcaps, abortedOutcome]
    · simp only [if_neg hd]
      rcases htrig with hret | hfire
      · simp [hret, hcaps, abortedOutcome]
      · simp [hfire, hcaps, abortedOutcome]
  · intro s inp hne hnsub hfire
    unfold drawFrame
    by_cases hw : inp.waitFencesRes ≠ VkResult.success
    · rw [if_pos hw]
      rfl
    · rw [if_neg hw]
      by_cases hr : inp.resetFencesRes ≠ VkResult.success
      · rw [if_pos hr]
        rfl
      · rw [if_neg hr]
        by_cases ha : inp.acquireRes ≠ VkResult.success
        · rw [if_pos ha]
          rfl
        · rw [if_neg ha]
          by_cases hq : inp.submitRes ≠ VkResult.success
          · rw [if_pos hq]
            rfl
          · rw [if_neg hq]
            by_cases hd : s.oldSwapchain.isSome ∧ s.retireFrame = s.frameCount
            · simp only [if_pos hd]
              simp [hne, hnsub, hfire, abortedOutcome]
            · simp only [if_neg hd]
              simp [hne, hnsub, hfire, abortedOutcome]

/-- C8 witness: a clean suboptimal frame does not abort, and with no resize
pending an out-of-date present result does abort. -/
theorem c8_witness :
    (drawFrame freshState suboptInput).aborted = false ∧
    (drawFrame freshState
      { suboptInput with presentRes := VkResult.errorOutOfDateKHR }).aborted = true := by
  constructor
  · exact c8_error_policy_amended.1 freshState suboptInput (by decide) (by decide)
  · exact c8_error_policy_amended.2.2.2.2.2.2 freshState
      { suboptInput with presentRes := VkResult.errorOutOfDateKHR }
      (by decide) (by decide) (by decide)

/-- A frame that neither swaps nor aborts leaves the debounce counter
unchanged or decrements it (uint32 semantics); it never reseeds it. -/
theorem drawFrame_noSwap_counter (s : RendererState) (inp : FrameInput)
    (hnoswap : (drawFrame s inp).swapExecuted = false)
    (habort : (drawFrame s inp).aborted = false) :
    (drawFrame s inp).state.preRotationLatency = s.preRotationLatency ∨
    (drawFrame s inp).state.preRotationLatency = decrementU32 s.preRotationLatency := by
  unfold drawFrame at hnoswap habort ⊢
  by_cases hw : inp.waitFencesRes ≠ VkResult.success
  · rw [if_pos hw]
    exact Or.inl rfl
  · rw [if_neg hw] at hnoswap habort ⊢
    by_cases hr : inp.resetFencesRes ≠ VkResult.success
    · rw [if_pos hr]
      exact Or.inl rfl
    · rw [if_neg hr] at hnoswap habort ⊢
      by_cases ha : inp.acquireRes ≠ VkResult.success
      · rw [if_pos ha]
        exact Or.inl rfl
      · rw [if_neg ha] at hnoswap habort ⊢
        by_cases hq : inp.submitRes ≠ VkResult.success
        · rw [if_pos hq]
          exact Or.inl rfl
        · rw [if_neg hq] at hnoswap habort ⊢
          by_cases hd : s.oldSwapchain.isSome = true ∧ s.retireFrame = s.frameCount
          · simp only [if_pos hd] at hnoswap habort ⊢
            by_cases htrig : inp.presentRes = VkResult.suboptimalKHR ∨
                ({ s with oldSwapchain := none } : RendererState).fireRecreateSwapchain
                  = true
            · simp only [if_pos htrig] at hnoswap habort ⊢
              by_cases hcaps : inp.surfaceCapsRes ≠ VkResult.success
              · simp only [if_pos hcaps]
                exact Or.inl rfl
              · simp only [if_neg hcaps] at hnoswap habort ⊢
                by_cases hb : (is180Rotation inp.probeTransform
                    ({ s with oldSwapchain := none } : RendererState).preTransform
                    || ({ s with oldSwapchain := none } :
                          RendererState).fireRecreateSwapchain) = true
                · simp only [if_pos hb] at hnoswap habort
                  unfold executeSwap at hnoswap habort
                  by_cases h6f : inp.createSwapchainRes ≠ VkResult.success
                  · rw [if_neg hcaps, if_pos h6f] at habort
                    exact absurd habort (by simp [abortedOutcome])
                  · rw [if_neg hcaps, if_neg h6f] at hnoswap
                    exact absurd hnoswap (by simp)
                · simp only [if_neg hb] at hnoswap habort ⊢
                  by_cases hc0 : decrementU32
                      ({ s with oldSwapchain := none } :
                        RendererState).preRotationLatency = 0
                  · simp only [if_pos hc0] at hnoswap habort
                    unfold executeSwap at hnoswap habort
                    by_cases h6f : inp.createSwapchainRes ≠ VkResult.success
                    · rw [if_neg hcaps, if_pos h6f] at habort
                      exact absurd habort (by simp [abortedOutcome])
                    · rw [if_neg hcaps, if_neg h6f] at hnoswap
                      exact absurd hnoswap (by simp)
                  · simp only [if_neg hc0]
                    exact Or.inr trivial
            · simp only [if_neg htrig]
              by_cases hps : inp.presentRes ≠ VkResult.success
              · simp only [if_pos hps]
                exact Or.inl rfl
              · simp only [if_neg hps]
                exact Or.inl trivial
          · simp only [if_neg hd] at hnoswap habort ⊢
            by_cases htrig : inp.presentRes = VkResult.suboptimalKHR ∨
                s.fireRecreateSwapchain = true
            · simp only [if_pos htrig] at hnoswap habort ⊢
              by_cases hcaps : inp.surfaceCapsRes ≠ VkResult.success
              · simp only [if_pos hcaps]
                exact Or.inl rfl
              · simp only [if_neg hcaps] at hnoswap habort ⊢
                by_cases hb : (is180Rotation inp.probeTransform s.preTransform
                    || s.fireRecreateSwapchain) = true
                · simp only [if_pos hb] at hnoswap habort
                  unfold executeSwap at hnoswap habort
                  by_cases h6f : inp.createSwapchainRes ≠ VkResult.success
                  · rw [if_neg hcaps, if_pos h6f] at habort
                    exact absurd habort (by simp [abortedOutcome])
                  · rw [if_neg hcaps, if_neg h6f] at hnoswap
                    exact absurd hnoswap (by simp)
                · simp only [if_neg hb] at hnoswap habort ⊢
                  by_cases hc0 : decrementU32 s.preRotationLatency = 0
                  · simp only [if_pos hc0] at hnoswap habort
                    unfold executeSwap at hnoswap habort
                    by_cases h6f : inp.createSwapchainRes ≠ VkResult.success
                    · rw [if_neg hcaps, if_pos h6f] at habort
                      exact absurd habort (by simp [abortedOutcome])
                    · rw [if_neg hcaps, if_neg h6f] at hnoswap
                      exact absurd hnoswap (by simp)
                  · simp only [if_neg hc0]
                    exact Or.inr trivial
            · simp only [if_neg htrig]
              by_cases hps : inp.presentRes ≠ VkResult.success
              · simp only [if_pos hps]
                exact Or.inl rfl
              · simp only [if_neg hps]
                exact Or.inl trivial

set_option maxRecDepth 8192 in
/-- C10: the debounce counter is reseeded to 30 only by an executed swap; a
frame whose present succeeds (with no resize pending) leaves it untouched
and performs no swap; a frame without a swap or abort can only keep or
decrement it; and concretely, decrements from a 20-frame suboptimal burst
persist across 5 successful frames, after which a burst of just 10
suboptimal frames — fewer than 30 — triggers the swap. -/
theorem c10_counter_persistence :
    (∀ (s : RendererState) (inp : FrameInput), allCallsOk inp →
      inp.presentRes = VkResult.success → s.fireRecreateSwapchain = false →
      (drawFrame s inp).swapExecuted = false ∧
      (drawFrame s inp).state.preRotationLatency = s.preRotationLatency) ∧
    (∀ (s : RendererState) (inp : FrameInput),
      (drawFrame s inp).swapExecuted = false → (drawFrame s inp).aborted = false →
      ((drawFrame s inp).state.preRotationLatency = s.preRotationLatency ∨
        (drawFrame s inp).state.preRotationLatency =
          decrementU32 s.preRotationLatency)) ∧
    (∀ (s : RendererState) (inp : FrameInput), allCallsOk inp →
      (drawFrame s inp).swapExecuted = true →
      (drawFrame s inp).state.preRotationLatency = kPreRotationLatency) ∧
    ((runFrames freshState (List.replicate 20 suboptInput)).2.preRotationLatency = 10 ∧
      (runFrames (runFrames freshState (List.replicate 20 suboptInput)).2
        (List.replicate 5 successInput)).2.preRotationLatency = 10 ∧
      countSwaps (runFrames freshState
        (List.replicate 20 suboptInput ++ List.replicate 5 successInput ++
          List.replicate 9 suboptInput)).1 = 0 ∧
      countSwaps (runFrames freshState
        (List.replicate 20 suboptInput ++ List.replicate 5 successInput ++
          List.replicate 10 suboptInput)).1 = 1) := by
  refine ⟨?_, ?_, ?_, by decide⟩
  · intro s inp hok hp hfire
    obtain ⟨h1, h2, h3, h4, h5, h6⟩ := hok
    unfold drawFrame
    rw [h1, h2, h3, h4, hp]
    simp [hfire, apply_ite RendererState.preRotationLatency,
      apply_ite RendererState.fireRecreateSwapchain]
  · intro s inp hnoswap habort
    exact drawFrame_noSwap_counter s inp hnoswap habort
  · intro s inp hok hswap
    rw [(drawFrame_swap_shape s inp hok hswap).1]

/-- C10 witness: a successful present leaves the fresh counter at 30, and a
resize-triggered swap reseeds it to the constant. -/
theorem c10_witness :
    (drawFrame freshState successInput).state.preRotationLatency =
      freshState.preRotationLatency ∧
    (drawFrame (updateSurface freshState 123 456)
      successInput).state.preRotationLatency = kPreRotationLatency := by
  constructor
  · exact (c10_counter_persistence.1 freshState successInput (by decide) (by decide)
      (by decide)).2
  · exact c10_counter_persistence.2.2.1 (updateSurface freshState 123 456) successInput
      (by decide) (by decide)

/-- C9 witness: notifying the fresh 1080x1920 state of an 800x600 surface
sets the flag and leaves the recorded dimensions untouched. -/
theorem c9_witness :
    (updateSurface freshState 800 600).fireRecreateSwapchain = true ∧
    (updateSurface freshState 800 600).surfaceWidth = freshState.surfaceWidth ∧
    (updateSurface freshState 800 600).oldSwapchain = freshState.oldSwapchain := by
  have h := c9_update_surface freshState 800 600
  exact ⟨h.1 (by decide), h.2.2.2.1, h.2.2.2.2.2.2.2.2.2.2.2.2.1⟩

end VkDemo
